import Mathlib

/-
Shallow embedding of the mongo model facade `ModelAbstract`
(src/unnamed/part_000) and of its out-of-repo collaborators
(FindCursorChain, DebugTimer, Error/ErrorCodes), used to check the
natural-language specification against the code.

Conventions of the embedding:
* JavaScript promises are modelled by `POutcome`: a promise either
  resolves, rejects with a JS value, or never settles (`pending`).
* A promise executor that throws is modelled as a rejection (the
  Promise constructor converts the throw), while a plain method that
  throws is modelled with `Except`.
* Machine-level details that no claim touches (exact JSON.stringify
  output) are abstracted into simple total serializers.
-/

namespace Maf

/-- JavaScript primitive values, as far as the facade inspects them. -/
inductive JsPrim where
  | vNull
  | vUndef
  | vBool (b : Bool)
  | vNum (n : Int)
  | vStr (s : String)
  deriving DecidableEq, Inhabited

/-- JS truthiness of a primitive: null, undefined, false, 0 and the
empty string are falsy, everything else is truthy. -/
def JsPrim.truthy : JsPrim → Bool
  | .vNull => false
  | .vUndef => false
  | .vBool b => b
  | .vNum n => decide (n ≠ 0)
  | .vStr s => decide (s ≠ "")

/-- JS string coercion, used by the `+` concatenation in the
ALREADY_EXISTS message (line 150). -/
def jsToString : JsPrim → String
  | .vNull => "null"
  | .vUndef => "undefined"
  | .vBool b => if b then "true" else "false"
  | .vNum n => toString n
  | .vStr s => s

/-- Error codes of the facade. The ErrorCodes module is not under src/;
the two symbolic codes used by ModelAbstract are modelled as opaque-free
constructors, and numeric driver codes (such as the mongo duplicate-key
code 11000 tested on line 147) as `storeCode`. -/
inductive ErrCode where
  | NO_COLLECTION_NAME
  | ALREADY_EXISTS
  | storeCode (n : Int)
  deriving DecidableEq

/-- A JS error object: a message and an optional `code` property.
A plain TypeError carries no `code`. -/
structure JsError where
  message : String
  code : Option ErrCode := none
  deriving DecidableEq

/-- A value a promise can reject with: an error object, or any other
JS value (possibly falsy, which matters on line 144). -/
inductive RejVal where
  | err (e : JsError)
  | prim (p : JsPrim)
  deriving DecidableEq

/-- Truthiness of a rejection value; error objects are always truthy. -/
def RejVal.truthy : RejVal → Bool
  | .err _ => true
  | .prim p => p.truthy

/-- Reading the `code` property off a rejection value (line 147):
defined on error objects, undefined on primitives. -/
def RejVal.jsCode : RejVal → Option ErrCode
  | .err e => e.code
  | .prim _ => none

/-- Reading the `message` property off a rejection value: defined on
error objects, undefined (coerced for the timer) on primitives. -/
def RejVal.jsMessage : RejVal → String
  | .err e => e.message
  | .prim _ => "undefined"

/-- Outcome of a JS promise: resolved, rejected, or never settled. -/
inductive POutcome (α : Type) where
  | resolved (a : α)
  | rejected (v : RejVal)
  | pending
  deriving DecidableEq

/-- The TypeError raised when a method is dereferenced off the null
`this._collection` of an uninitialized facade; it has no `code`. -/
def typeError (method : String) : JsError :=
  { message := "Cannot read property " ++ method ++ " of null" }

/-- The ModelError thrown by `init` (lines 48-51). -/
def noCollectionNameError : JsError :=
  { message := "no collection name for model", code := some .NO_COLLECTION_NAME }

/-- init (lines 44-58): throws NO_COLLECTION_NAME synchronously when the
collection name is falsy (never set, i.e. null, or the empty string),
otherwise binds the collection handle to the declared name. -/
def init (collectionName : Option String) : Except JsError String :=
  match collectionName with
  | none => .error noCollectionNameError
  | some s => if s = "" then .error noCollectionNameError else .ok s

/- ## Index reconciliation (`ensureIndexes`, lines 60-113) -/

/-- Options of one index declaration; `name` is the reconciliation key. -/
structure IndexOptions where
  name : String
  unique : Bool := false
  deriving DecidableEq

/-- One declared index: a field mapping and its options (spec section 3). -/
structure IndexDecl where
  fields : List (String × Int)
  options : IndexOptions
  deriving DecidableEq

/-- Store calls issued by `ensureIndexes`, in issue order. -/
inductive IdxEvent where
  | indexExists (name : String)
  | createIndex (fields : List (String × Int)) (options : IndexOptions)
  deriving DecidableEq

/-- The declarations whose phase-1 existence check comes back false
(lines 79-90): those whose name is not among the live index names. -/
def missingIndexes (indexes : List IndexDecl) (existing : List String) : List IndexDecl :=
  indexes.filter (fun i => decide (i.options.name ∉ existing))

/-- Promise.all over the creation results (line 97): the first error in
issue order rejects the whole batch, otherwise all results are kept. -/
def allSettle : List (Except JsError String) → Except JsError (List String)
  | [] => .ok []
  | .error e :: _ => .error e
  | .ok s :: rest => (allSettle rest).map (fun l => s :: l)

/-- Names of the indexes whose creation call succeeded; the driver makes
a successfully created index exist under its declared name. -/
def createdNames (missing : List IndexDecl)
    (create : IndexDecl → Except JsError String) : List String :=
  (missing.filter (fun i => (create i).isOk)).map (fun i => i.options.name)

/-- One run of `ensureIndexes`: the store calls it issued, the promise
outcome, and the live index names after the run. -/
structure EnsureRun where
  events : List IdxEvent
  outcome : POutcome (List String)
  existsAfter : List String
  deriving DecidableEq

/-- ensureIndexes (lines 60-113). With no declared indexes it resolves
with an empty array at once (lines 64-67). Otherwise phase 1 issues one
`indexExists` check per declaration (lines 69-73) and awaits all of
them; phase 2 issues one `createIndex` call per declaration whose check
returned false (lines 79-90); with no creations it resolves with an
empty array (lines 92-95), else it resolves with the creation results
or rejects with the first creation error (lines 97-103). `existing` is
the set of live index names; `create` is the driver creation behavior. -/
def ensureIndexes (indexes : Option (List IndexDecl)) (existing : List String)
    (create : IndexDecl → Except JsError String) : EnsureRun :=
  match indexes with
  | none => { events := [], outcome := .resolved [], existsAfter := existing }
  | some idxs =>
      let checks := idxs.map (fun i => IdxEvent.indexExists i.options.name)
      let missing := missingIndexes idxs existing
      if missing.isEmpty then
        { events := checks, outcome := .resolved [], existsAfter := existing }
      else
        let creates := missing.map (fun i => IdxEvent.createIndex i.fields i.options)
        let after := existing ++ createdNames missing create
        match allSettle (missing.map create) with
        | .ok results =>
            { events := checks ++ creates, outcome := .resolved results, existsAfter := after }
        | .error e =>
            { events := checks ++ creates, outcome := .rejected (.err e), existsAfter := after }

/- ## Instrumentation (DebugTimer, `_logDebug`, lines 410-433) -/

/-- Modelled from the spec: the DebugTimer collaborator
(`../../Debug/Timer`) is not under src/. Per spec section 4.3 a timer
carries a category, a name and a mutable message; `stop` delivers
a record with a computed duration through the registered completion
hook, and `error` delivers the error variant through the same hook.
`durationMs` is logical time: the number of store suspension points
awaited between the start of the operation and the terminal call. -/
structure TimerRecord where
  category : String
  name : String
  message : String
  durationMs : Nat
  error : Option String := none
  deriving DecidableEq

/-- The installed instrumentation sink: it may or may not expose a
`log` capability, and accumulates the records it received. -/
structure Sink where
  hasLog : Bool
  logged : List TimerRecord := []
  deriving DecidableEq

/-- _logDebug (lines 410-417): with no debugger installed, or one
without a `log` capability, the record is silently dropped; otherwise
it is handed to the sink. Total: the delivery path never throws. -/
def _logDebug (sink : Option Sink) (data : TimerRecord) : Option Sink :=
  match sink with
  | none => none
  | some s => if s.hasLog then some { s with logged := s.logged ++ [data] } else some s

/-- Delivery of the records a run produced, in order, through the
completion hook installed by `_createTimer` (lines 425-433). -/
def deliverAll (sink : Option Sink) (records : List TimerRecord) : Option Sink :=
  records.foldl _logDebug sink

/- ## Documents and the store reply channel -/

/-- A document, as far as the facade inspects it: the client-supplied
`id`, the primary-key field `_id`, and the remaining fields (opaque to
the facade). An absent property is `vUndef`. -/
structure Doc where
  id : JsPrim := .vUndef
  _id : JsPrim := .vUndef
  rest : List (String × JsPrim) := []
  deriving DecidableEq, Inhabited

/-- JSON.stringify (line 441), abstracted to a simple total serializer;
no claim depends on the exact rendering. -/
def _json : JsPrim → String
  | .vNull => "null"
  | .vUndef => "undefined"
  | .vBool b => if b then "true" else "false"
  | .vNum n => toString n
  | .vStr s => "\x22" ++ s ++ "\x22"

/-- Serialization of a document for timer messages, likewise abstract. -/
def docJson (d : Doc) : String :=
  "(id=" ++ _json d.id ++ ", _id=" ++ _json d._id ++ ")"

/-- The reply of one store driver call: the driver promise resolves
with a value or rejects with an arbitrary JS value. -/
inductive StoreReply (α : Type) where
  | resolved (a : α)
  | rejected (v : RejVal)
  deriving DecidableEq

/-- One run of a facade operation: the outcome of the returned promise
and the timer records delivered to the completion hook, in order. -/
structure OpRun (α : Type) where
  outcome : POutcome α
  records : List TimerRecord
  deriving DecidableEq

/- ## insertOne (lines 121-165) -/

/-- The identifier copy at lines 127-129: when `data.id` is truthy it
is copied into the primary-key field `_id` of the same object; a falsy
`id` (0, empty string, null, absent) sets nothing. -/
def insertOnePrepare (data : Doc) : Doc :=
  if data.id.truthy then { data with _id := data.id } else data

/-- The in-place mutation of lines 127-129 on an explicit heap of
document objects: the heap cell `r` holding the caller's object is
overwritten, and the same reference `r` is what the store call then
receives (line 133). -/
def insertOneMutate (heap : List Doc) (r : Nat) : List Doc × Nat :=
  (heap.set r (insertOnePrepare (heap.getD r default)), r)

/-- The ALREADY_EXISTS error built at lines 149-152; the message embeds
the (string-coerced) client identifier. -/
def alreadyExistsError (data : Doc) : JsError :=
  { message := "record with id = " ++ jsToString data.id ++ " already exists",
    code := some .ALREADY_EXISTS }

/-- insertOne (lines 121-165). With no bound collection the executor
dereferences null and the Promise constructor turns the TypeError into
a rejection; no timer terminal fires. Otherwise the prepared document
is handed to the store: resolution resolves with `result.ops[0]` or
null (lines 134-141) after a `stop` record; a truthy rejection is
normalized to ALREADY_EXISTS exactly when its `code` is the duplicate
key code 11000, else passed through, with an `error` record
(lines 143-161); a falsy rejection hits the `if (error)` guard and
neither resolves nor rejects the outer promise (line 144). -/
def insertOne (coll : Option String) (store : Doc → StoreReply (Option (List Doc)))
    (data : Doc) : OpRun (Option Doc) :=
  match coll with
  | none => { outcome := .rejected (.err (typeError "insertOne")), records := [] }
  | some name =>
      let d := insertOnePrepare data
      let msg := "db." ++ name ++ ".insert(" ++ docJson d ++ ")"
      match store d with
      | .resolved ops? =>
          let value : Option Doc :=
            match ops? with
            | some (x :: _) => some x
            | _ => none
          { outcome := .resolved value,
            records := [{ category := "mongo", name := "insertOne",
                          message := msg, durationMs := 1 }] }
      | .rejected v =>
          if v.truthy then
            let e : RejVal :=
              if v.jsCode = some (.storeCode 11000) then .err (alreadyExistsError data)
              else v
            { outcome := .rejected e,
              records := [{ category := "mongo", name := "insertOne",
                            message := msg, durationMs := 1, error := some e.jsMessage }] }
          else
            { outcome := .pending, records := [] }

/- ## findOneAndUpdate (lines 174-204) -/

/-- The options object of findOneAndUpdate, as far as the facade
inspects it: the `returnOriginal` property, `none` when undefined. -/
structure FOUOptions where
  returnOriginal : Option Bool := none
  deriving DecidableEq

/-- The defaulting at lines 178-186: a falsy options argument is
replaced by `(returnOriginal = false)`; an options object without the
property gets it set to false; an explicit value is kept. -/
def normalizeFOUOptions : Option FOUOptions → FOUOptions
  | none => { returnOriginal := some false }
  | some o =>
      match o.returnOriginal with
      | none => { o with returnOriginal := some false }
      | some _ => o

/-- Modelled from the spec: the store driver findOneAndUpdate is out of
scope of src/. Per spec section 4.1, it applies the update to the
matching document and returns the pre-update document exactly when the
options request the original, else the post-update document. `current`
is the matching document, `apply` the driver update semantics. -/
def storeFindOneAndUpdate (current : Doc) (apply : JsPrim → Doc → Doc)
    (update : JsPrim) (o : FOUOptions) : Doc :=
  if o.returnOriginal = some true then current else apply update current

/-- findOneAndUpdate (lines 174-204): normalizes the options, passes
filter, update and normalized options to the store, resolves with the
store value after a `stop` record, or rejects the store error after an
`error` record. -/
def findOneAndUpdate (coll : Option String)
    (store : JsPrim → JsPrim → FOUOptions → StoreReply Doc)
    (filter update : JsPrim) (options : Option FOUOptions) : OpRun Doc :=
  match coll with
  | none => { outcome := .rejected (.err (typeError "findOneAndUpdate")), records := [] }
  | some _ =>
      let o := normalizeFOUOptions options
      let msg := "filter=" ++ _json filter ++ " update=" ++ _json update
      match store filter update o with
      | .resolved d =>
          { outcome := .resolved d,
            records := [{ category := "mongo", name := "findOneAndUpdate",
                          message := msg, durationMs := 1 }] }
      | .rejected v =>
          { outcome := .rejected v,
            records := [{ category := "mongo", name := "findOneAndUpdate",
                          message := msg, durationMs := 1, error := some v.jsMessage }] }

/- ## findOne (lines 214-234) and findOneById (lines 242-264) -/

/-- findOne (lines 214-234): passes query and options to the store;
a returned document resolves as is, an absent one resolves null. -/
def findOne (coll : Option String)
    (store : JsPrim → JsPrim → StoreReply (Option Doc))
    (query options : JsPrim) : OpRun (Option Doc) :=
  match coll with
  | none => { outcome := .rejected (.err (typeError "findOne")), records := [] }
  | some _ =>
      let msg := "query=" ++ _json query ++ " options=" ++ _json options
      match store query options with
      | .resolved doc? =>
          { outcome := .resolved doc?,
            records := [{ category := "mongo", name := "findOne",
                          message := msg, durationMs := 1 }] }
      | .rejected v =>
          { outcome := .rejected v,
            records := [{ category := "mongo", name := "findOne",
                          message := msg, durationMs := 1, error := some v.jsMessage }] }

/-- The filter object `(_id = id)` built at line 248. -/
structure IdFilter where
  _id : JsPrim
  deriving DecidableEq

/-- findOneById (lines 242-264): builds the filter `(_id = id)` and
calls the one-argument store findOne with it; the options argument is
used only in the timer message (line 246) and never reaches the store.
The second component is the store call issued, if any. -/
def findOneById (coll : Option String)
    (store : IdFilter → StoreReply (Option Doc))
    (id options : JsPrim) : OpRun (Option Doc) × Option IdFilter :=
  match coll with
  | none =>
      ({ outcome := .rejected (.err (typeError "findOne")), records := [] }, none)
  | some _ =>
      let filter : IdFilter := { _id := id }
      let msg := "id=" ++ _json id ++ " options=" ++ _json options
      match store filter with
      | .resolved doc? =>
          ({ outcome := .resolved doc?,
             records := [{ category := "mongo", name := "findOneById",
                           message := msg, durationMs := 1 }] }, some filter)
      | .rejected v =>
          ({ outcome := .rejected v,
             records := [{ category := "mongo", name := "findOneById",
                           message := msg, durationMs := 1, error := some v.jsMessage }] },
           some filter)

/- ## updateOne (lines 318-335), removeOne (lines 346-362), count (lines 371-389) -/

/-- updateOne (lines 318-335): hands filter, payload and a literal
empty options object to the store update, and resolves with the input
payload, not with the store reply. -/
def updateOne (coll : Option String)
    (store : JsPrim → JsPrim → StoreReply Nat)
    (filter data options : JsPrim) : OpRun JsPrim :=
  match coll with
  | none => { outcome := .rejected (.err (typeError "update")), records := [] }
  | some _ =>
      let msg := "filter=" ++ _json filter ++ " data=" ++ _json data
                   ++ " options=" ++ _json options
      match store filter data with
      | .resolved _ =>
          { outcome := .resolved data,
            records := [{ category := "mongo", name := "updateOne",
                          message := msg, durationMs := 1 }] }
      | .rejected v =>
          { outcome := .rejected v,
            records := [{ category := "mongo", name := "updateOne",
                          message := msg, durationMs := 1, error := some v.jsMessage }] }

/-- removeOne (lines 346-362): hands the filter and a literal empty
options object to the store remove and resolves with the removed
count. The timer is created under the name `findOne` (line 347, as in
the source). -/
def removeOne (coll : Option String)
    (store : JsPrim → StoreReply Nat)
    (filter options : JsPrim) : OpRun Nat :=
  match coll with
  | none => { outcome := .rejected (.err (typeError "remove")), records := [] }
  | some _ =>
      let msg := "filter=" ++ _json filter ++ " options=" ++ _json options
      match store filter with
      | .resolved n =>
          { outcome := .resolved n,
            records := [{ category := "mongo", name := "findOne",
                          message := msg, durationMs := 1 }] }
      | .rejected v =>
          { outcome := .rejected v,
            records := [{ category := "mongo", name := "findOne",
                          message := msg, durationMs := 1, error := some v.jsMessage }] }

/-- count (lines 371-389): hands only the filter to the store count
(the options argument appears only in the timer message) and resolves
with the store reply. -/
def count (coll : Option String)
    (store : JsPrim → StoreReply Nat)
    (filter options : JsPrim) : OpRun Nat :=
  match coll with
  | none => { outcome := .rejected (.err (typeError "count")), records := [] }
  | some _ =>
      let msg := "filter=" ++ _json filter ++ " options=" ++ _json options
      match store filter with
      | .resolved n =>
          { outcome := .resolved n,
            records := [{ category := "mongo", name := "count",
                          message := msg, durationMs := 1 }] }
      | .rejected v =>
          { outcome := .rejected v,
            records := [{ category := "mongo", name := "count",
                          message := msg, durationMs := 1, error := some v.jsMessage }] }

/- ## aggregate (lines 398-403) -/

/-- Events of one aggregate call, in order: a record delivered through
the timer completion hook, or the delegation to the store driver. -/
inductive AggEvent where
  | sinkRecord (r : TimerRecord)
  | storeAggregate (pipeline : JsPrim) (options : JsPrim)
  deriving DecidableEq

/-- aggregate (lines 398-403): sets the timer message, fires
`timer.stop()` at line 401 — before the store is contacted, so the
delivered record has logical duration 0 and precedes the store call —
and returns the driver cursor for `(pipeline, options)` directly. With
no bound collection the delegation at line 402 throws synchronously
(after the record was already delivered). -/
def aggregate {χ : Type} (coll : Option String) (storeAgg : JsPrim → JsPrim → χ)
    (pipeline options : JsPrim) : Except JsError χ × List AggEvent :=
  let stopRecord : TimerRecord :=
    { category := "mongo", name := "aggregate",
      message := "pipeline=" ++ _json pipeline ++ " options=" ++ _json options,
      durationMs := 0 }
  match coll with
  | none => (.error (typeError "aggregate"), [.sinkRecord stopRecord])
  | some _ =>
      (.ok (storeAgg pipeline options),
       [.sinkRecord stopRecord, .storeAggregate pipeline options])

/- ## find and the lazy query chain (lines 276-309) -/

/-- Modelled from the spec: FindCursorChain (`./FindCursorChain`) is
not under src/. Per spec sections 3 and 4.2 it is a builder owning
the collection handle, a filter and a projection, with mutator-style
calls accumulating sort, limit and offset, executed once through the
hook the facade installs with `onExec`. -/
structure FindCursorChain where
  collection : Option String
  filter : JsPrim
  fields : JsPrim
  sortV : Option (List (String × Int)) := none
  limitV : Option Nat := none
  offsetV : Option Nat := none
  deriving DecidableEq

/-- Fluent sort accumulator of the chain (spec section 4.2). -/
def FindCursorChain.sort (c : FindCursorChain) (s : List (String × Int)) : FindCursorChain :=
  { c with sortV := some s }

/-- Fluent limit accumulator of the chain (spec section 4.2). -/
def FindCursorChain.limit (c : FindCursorChain) (n : Nat) : FindCursorChain :=
  { c with limitV := some n }

/-- Fluent offset accumulator of the chain (spec section 4.2). -/
def FindCursorChain.offset (c : FindCursorChain) (n : Nat) : FindCursorChain :=
  { c with offsetV := some n }

/-- find (lines 276-309): constructs the chain over the collection
handle, filter and projection, installs the timer hook, and returns
the chain itself (not a promise). -/
def find (coll : Option String) (filter fields : JsPrim) : FindCursorChain :=
  { collection := coll, filter := filter, fields := fields }

/-- Modelled from the spec: the driver cursor count-matching-filter
operation counts every document matching the filter, regardless of the
accumulated limit and offset. `docMatches` is the driver filter
semantics over the documents of the live collection `storeDocs`. -/
def cursorMatches (storeDocs : List Doc) (docMatches : JsPrim → Doc → Bool)
    (c : FindCursorChain) : List Doc :=
  storeDocs.filter (docMatches c.filter)

/-- Modelled from the spec: the driver cursor materialization applies
the accumulated sort order (`docLe` is the driver comparator for the
accumulated sort specification), then the offset, then the limit. -/
def cursorToArray (storeDocs : List Doc) (docMatches : JsPrim → Doc → Bool)
    (docLe : Doc → Doc → Bool) (c : FindCursorChain) : List Doc :=
  let sorted :=
    match c.sortV with
    | none => cursorMatches storeDocs docMatches c
    | some _ => (cursorMatches storeDocs docMatches c).mergeSort docLe
  let afterOffset :=
    match c.offsetV with
    | none => sorted
    | some k => sorted.drop k
  match c.limitV with
  | none => afterOffset
  | some n => afterOffset.take n

/-- The combined page result of the terminal step (lines 293-296). -/
structure FindResult where
  total : Nat
  docs : List Doc
  deriving DecidableEq

/-- The terminal execution step of the chain, through the hook the
facade installs at lines 282-306: with a null collection handle the
cursor construction fails and the hook is never reached; otherwise
`timer.stop()` fires at line 288 — before the cursor operations are
awaited, hence with logical duration 0 — then count and materialize
run concurrently; on joint success the page result resolves; on a
failure (`countFail` / `fetchFail` inject a driver failure into the
respective cursor operation) the catch at lines 299-302 fires
`timer.error` as a second terminal call and rejects. -/
def chainExec (storeDocs : List Doc) (docMatches : JsPrim → Doc → Bool)
    (docLe : Doc → Doc → Bool) (countFail fetchFail : Option JsError)
    (c : FindCursorChain) : OpRun FindResult :=
  match c.collection with
  | none => { outcome := .rejected (.err (typeError "find")), records := [] }
  | some name =>
      let msg := "db." ++ name ++ ".find(" ++ _json c.filter ++ ")"
      let stopRecord : TimerRecord :=
        { category := "mongo", name := "find", message := msg, durationMs := 0 }
      match countFail with
      | some e =>
          { outcome := .rejected (.err e),
            records := [stopRecord,
                        { stopRecord with durationMs := 1, error := some e.message }] }
      | none =>
          match fetchFail with
          | some e =>
              { outcome := .rejected (.err e),
                records := [stopRecord,
                            { stopRecord with durationMs := 1, error := some e.message }] }
          | none =>
              { outcome := .resolved
                  { total := (cursorMatches storeDocs docMatches c).length,
                    docs := cursorToArray storeDocs docMatches docLe c },
                records := [stopRecord] }

/- ## Auxiliary definitions for witnesses and statements -/

/-- First concrete index declaration for the reconciliation witness. -/
def wIdx1 : IndexDecl := { fields := [("a", 1)], options := { name := "a_1" } }

/-- Second concrete index declaration for the reconciliation witness. -/
def wIdx2 : IndexDecl := { fields := [("b", -1)], options := { name := "b_m1", unique := true } }

/-- Driver creation behavior that always succeeds with the index name. -/
def wCreate : IndexDecl → Except JsError String := fun i => .ok i.options.name

/-- Substring containment, used to state the ALREADY_EXISTS message
contract. -/
def containsStr (s sub : String) : Prop := ∃ a b, s = a ++ sub ++ b

/-- Whether an aggregate event is a record delivery to the sink. -/
def AggEvent.isSinkRecord : AggEvent → Bool
  | .sinkRecord _ => true
  | .storeAggregate _ _ => false

/-- A concrete document carrying the client identifier `X`. -/
def wDocX : Doc := { id := .vStr "X" }

/-- A concrete store duplicate-key rejection (driver code 11000). -/
def wDupReject : RejVal :=
  .err { message := "E11000 duplicate key error", code := some (.storeCode 11000) }

/-- A concrete driver update semantics for the findOneAndUpdate witness. -/
def wApply : JsPrim → Doc → Doc := fun u d => { d with rest := [("u", u)] }

/-- Ten concrete documents, all matching the trivial filter. -/
def wTenDocs : List Doc := (List.range 10).map (fun n => { id := .vNum (n : Int) })

/-- The failed find run of the C4 analysis: the driver cursor count
operation rejects. -/
def wFailingFind : OpRun FindResult :=
  chainExec [] (fun _ _ => false) (fun _ _ => true)
    (some { message := "boom" }) none (find (some "users") .vNull .vNull)

/-- List cell update with the value already present is the identity. -/
theorem set_getD_self {α : Type} [Inhabited α] (l : List α) (r : Nat) (h : r < l.length) :
    l.set r (l.getD r default) = l := by
  induction l generalizing r with
  | nil => simp at h
  | cons a t ih =>
      cases r with
      | zero => simp [List.getD]
      | succ n =>
          simp only [List.getD_cons_succ, List.set_cons_succ, List.cons.injEq, true_and]
          exact ih n (by simpa using h)

/-- Reading back the cell just written. -/
theorem getD_set_self {α : Type} [Inhabited α] (l : List α) (r : Nat) (x : α)
    (h : r < l.length) : (l.set r x).getD r default = x := by
  induction l generalizing r with
  | nil => simp at h
  | cons a t ih =>
      cases r with
      | zero => simp [List.getD]
      | succ n =>
          simp only [List.set_cons_succ, List.getD_cons_succ]
          exact ih n (by simpa using h)

/- ## Claim theorems -/

/-- Membership in the missing set: declared, and its name is not live. -/
theorem mem_missingIndexes {i : IndexDecl} {idxs : List IndexDecl} {existing : List String} :
    i ∈ missingIndexes idxs existing ↔ i ∈ idxs ∧ i.options.name ∉ existing := by
  simp [missingIndexes]

/-- After one run every declared index name is live, provided every
issued creation succeeded. -/
theorem ensureIndexes_name_live (idxs : List IndexDecl) (existing : List String)
    (create : IndexDecl → Except JsError String)
    (hok : ∀ i ∈ missingIndexes idxs existing, (create i).isOk = true) :
    ∀ i ∈ idxs, i.options.name ∈ (ensureIndexes (some idxs) existing create).existsAfter := by
  intro i hi
  by_cases hmem : i.options.name ∈ existing
  · simp only [ensureIndexes]
    by_cases h : (missingIndexes idxs existing).isEmpty
    · simp [h, hmem]
    · simp only [h, if_neg, Bool.false_eq_true, not_false_eq_true]
      cases allSettle ((missingIndexes idxs existing).map create) <;>
        simp [hmem]
  · have hmiss : i ∈ missingIndexes idxs existing := mem_missingIndexes.mpr ⟨hi, hmem⟩
    have hne : ¬(missingIndexes idxs existing).isEmpty = true := by
      intro h
      rw [List.isEmpty_iff] at h
      rw [h] at hmiss
      simp at hmiss
    have hcreated : i.options.name ∈ createdNames (missingIndexes idxs existing) create := by
      simp only [createdNames, List.mem_map]
      exact ⟨i, List.mem_filter.mpr ⟨hmiss, hok i hmiss⟩, rfl⟩
    simp only [ensureIndexes, hne, Bool.false_eq_true, not_false_eq_true, if_neg]
    cases allSettle ((missingIndexes idxs existing).map create) <;>
      simp [hcreated]

/-- C1: ensureIndexes issues one existence check per declared index,
all before any creation, then one creation per declaration whose check
returned false and none for those already live; with no declaration, or
none missing, it resolves with an empty result; a second consecutive
invocation (all creations having succeeded, so every declared index now
exists) issues zero creation calls and resolves with an empty result. -/
theorem ensureIndexes_two_phase (idxs : List IndexDecl) (existing : List String)
    (create : IndexDecl → Except JsError String)
    (hok : ∀ i ∈ missingIndexes idxs existing, (create i).isOk = true) :
    (ensureIndexes (some idxs) existing create).events =
        idxs.map (fun i => IdxEvent.indexExists i.options.name) ++
        (missingIndexes idxs existing).map (fun i => IdxEvent.createIndex i.fields i.options) ∧
    (∀ i ∈ missingIndexes idxs existing, i.options.name ∉ existing) ∧
    ensureIndexes none existing create
        = { events := [], outcome := .resolved [], existsAfter := existing } ∧
    (missingIndexes idxs existing = [] →
      ensureIndexes (some idxs) existing create
        = { events := idxs.map (fun i => IdxEvent.indexExists i.options.name),
            outcome := .resolved [], existsAfter := existing }) ∧
    (ensureIndexes (some idxs)
        (ensureIndexes (some idxs) existing create).existsAfter create).events =
      idxs.map (fun i => IdxEvent.indexExists i.options.name) ∧
    (ensureIndexes (some idxs)
        (ensureIndexes (some idxs) existing create).existsAfter create).outcome
      = .resolved [] := by
  have hsecond : missingIndexes idxs
      (ensureIndexes (some idxs) existing create).existsAfter = [] := by
    simp only [missingIndexes, List.filter_eq_nil_iff]
    intro i hi
    simpa using ensureIndexes_name_live idxs existing create hok i hi
  refine ⟨?_, ?_, rfl, ?_, ?_, ?_⟩
  · simp only [ensureIndexes]
    by_cases h : (missingIndexes idxs existing).isEmpty
    · simp [h, List.isEmpty_iff.mp h]
    · simp only [h, Bool.false_eq_true, not_false_eq_true, if_neg]
      cases allSettle ((missingIndexes idxs existing).map create) <;> simp
  · intro i hi
    exact (mem_missingIndexes.mp hi).2
  · intro h
    simp [ensureIndexes, h]
  · revert hsecond
    generalize (ensureIndexes (some idxs) existing create).existsAfter = A
    intro hA
    simp [ensureIndexes, hA]
  · revert hsecond
    generalize (ensureIndexes (some idxs) existing create).existsAfter = A
    intro hA
    simp [ensureIndexes, hA]

/-- C1 witness: with `a_1` live and `b_m1` missing, the run checks both
declarations and creates exactly the missing one. -/
theorem ensureIndexes_two_phase_witness :
    (∀ i ∈ missingIndexes [wIdx1, wIdx2] ["a_1"], (wCreate i).isOk = true) ∧
    (ensureIndexes (some [wIdx1, wIdx2]) ["a_1"] wCreate).events =
      [.indexExists "a_1", .indexExists "b_m1",
       .createIndex [("b", -1)] { name := "b_m1", unique := true }] :=
  ⟨by decide, by
    have h := (ensureIndexes_two_phase [wIdx1, wIdx2] ["a_1"] wCreate (by decide)).1
    rw [h]; decide⟩

/-- C2 (amended): init on a facade with a falsy collection name (never
declared, or empty) throws synchronously with code NO_COLLECTION_NAME;
but the promise-returning CRUD operations invoked without prior
initialization reject asynchronously with a code-less null-dereference
TypeError, not with NO_COLLECTION_NAME, and find returns its chain
without error, failing only at terminal execution. -/
theorem uninitialized_operations (storeIns : Doc → StoreReply (Option (List Doc)))
    (storeFO : JsPrim → JsPrim → StoreReply (Option Doc))
    (storeFID : IdFilter → StoreReply (Option Doc))
    (storeFOU : JsPrim → JsPrim → FOUOptions → StoreReply Doc)
    (storeUpd : JsPrim → JsPrim → StoreReply Nat)
    (storeRem storeCnt : JsPrim → StoreReply Nat)
    (data : Doc) (q o f u d' p : JsPrim) (fopts : Option FOUOptions)
    (storeDocs : List Doc) (dm : JsPrim → Doc → Bool) (dle : Doc → Doc → Bool)
    (cf ff : Option JsError) :
    init none = .error noCollectionNameError ∧
    init (some "") = .error noCollectionNameError ∧
    noCollectionNameError.code = some .NO_COLLECTION_NAME ∧
    (insertOne none storeIns data).outcome = .rejected (.err (typeError "insertOne")) ∧
    (findOne none storeFO q o).outcome = .rejected (.err (typeError "findOne")) ∧
    (findOneById none storeFID q o).1.outcome = .rejected (.err (typeError "findOne")) ∧
    (findOneAndUpdate none storeFOU f u fopts).outcome
        = .rejected (.err (typeError "findOneAndUpdate")) ∧
    (updateOne none storeUpd f d' p).outcome = .rejected (.err (typeError "update")) ∧
    (removeOne none storeRem f p).outcome = .rejected (.err (typeError "remove")) ∧
    (count none storeCnt f p).outcome = .rejected (.err (typeError "count")) ∧
    find none f p = { collection := none, filter := f, fields := p } ∧
    (chainExec storeDocs dm dle cf ff (find none f p)).outcome
        = .rejected (.err (typeError "find")) ∧
    (∀ m, (typeError m).code ≠ some .NO_COLLECTION_NAME) := by
  refine ⟨rfl, rfl, rfl, rfl, rfl, rfl, rfl, rfl, rfl, rfl, rfl, rfl, ?_⟩
  intro m
  simp [typeError]

/-- C2 counterexample: at a concrete input, insertOne on a facade whose
init was never called does not fail with code NO_COLLECTION_NAME (as
the claim states): it rejects with a code-less TypeError. -/
theorem uninitialized_insertOne_counterexample :
    (insertOne none (fun _ => .resolved none) wDocX).outcome
        = .rejected (.err (typeError "insertOne")) ∧
    ¬∃ e : JsError, (insertOne none (fun _ => .resolved none) wDocX).outcome
        = .rejected (.err e) ∧ e.code = some .NO_COLLECTION_NAME := by
  refine ⟨rfl, ?_⟩
  rintro ⟨e, he, hc⟩
  simp only [insertOne, POutcome.rejected.injEq, RejVal.err.injEq] at he
  rw [← he] at hc
  simp [typeError] at hc

/-- C3: a truthy store rejection carrying the duplicate-key code 11000
is normalized to ALREADY_EXISTS with the offending identifier in the
message; any other truthy store failure is passed through unchanged. -/
theorem insertOne_error_normalization (nm : String)
    (store : Doc → StoreReply (Option (List Doc))) (data : Doc) (x : String) (v : RejVal)
    (hid : data.id = .vStr x)
    (hstore : store (insertOnePrepare data) = .rejected v) :
    (v.jsCode = some (.storeCode 11000) →
      (insertOne (some nm) store data).outcome = .rejected (.err (alreadyExistsError data)) ∧
      (alreadyExistsError data).code = some .ALREADY_EXISTS ∧
      containsStr (alreadyExistsError data).message x) ∧
    (v.truthy = true → ¬v.jsCode = some (.storeCode 11000) →
      (insertOne (some nm) store data).outcome = .rejected v) := by
  constructor
  · intro hdup
    have htr : v.truthy = true := by
      cases v with
      | err e => rfl
      | prim _ => simp [RejVal.jsCode] at hdup
    refine ⟨?_, rfl, ?_⟩
    · simp [insertOne, hstore, htr, hdup]
    · exact ⟨"record with id = ", " already exists",
        by simp [alreadyExistsError, hid, jsToString]⟩
  · intro htr hnot
    simp [insertOne, hstore, htr, hnot]

/-- C3 witness: a duplicate-key rejection on id `X` yields the
ALREADY_EXISTS error with `X` in the message. -/
theorem insertOne_error_normalization_witness :
    (insertOne (some "users") (fun _ => .rejected wDupReject) wDocX).outcome
        = .rejected (.err (alreadyExistsError wDocX)) ∧
    containsStr (alreadyExistsError wDocX).message "X" := by
  have h := insertOne_error_normalization "users" (fun _ => .rejected wDupReject)
      wDocX "X" wDupReject rfl rfl
  exact ⟨(h.1 rfl).1, (h.1 rfl).2.2⟩

/-- C4: on a find whose driver cursor count fails, the code delivers
TWO records to an installed sink for one rejected operation — the stop
record fired at line 288 before the cursor operations are awaited, and
the error record fired in the catch at line 300 — contradicting the
exactly-one-terminal contract. -/
theorem find_failure_delivers_two_records :
    wFailingFind.records.length = 2 ∧
    (wFailingFind.records.countP (fun r => r.error.isNone) = 1 ∧
     wFailingFind.records.countP (fun r => r.error.isSome) = 1) ∧
    deliverAll (some { hasLog := true }) wFailingFind.records
      = some { hasLog := true, logged := wFailingFind.records } ∧
    wFailingFind.outcome = .rejected (.err { message := "boom" }) := by
  decide

/-- C5: the terminal step of the find chain resolves with the full
filtered count as `total`, independent of the accumulated limit and
offset, while `docs` holds at most `limit` documents. -/
theorem find_total_independent_of_limit (nm : String) (storeDocs : List Doc)
    (dm : JsPrim → Doc → Bool) (dle : Doc → Doc → Bool)
    (c : FindCursorChain) (l : Nat)
    (hcoll : c.collection = some nm) (hlim : c.limitV = some l) :
    (chainExec storeDocs dm dle none none c).outcome
        = .resolved { total := (storeDocs.filter (dm c.filter)).length,
                      docs := cursorToArray storeDocs dm dle c } ∧
    (cursorToArray storeDocs dm dle c).length ≤ l ∧
    (∀ l2 k2, (chainExec storeDocs dm dle none none
          { c with limitV := l2, offsetV := k2 }).outcome
        = .resolved { total := (storeDocs.filter (dm c.filter)).length,
                      docs := cursorToArray storeDocs dm dle
                        { c with limitV := l2, offsetV := k2 } }) := by
  refine ⟨?_, ?_, ?_⟩
  · simp [chainExec, hcoll, cursorMatches]
  · simp only [cursorToArray, hlim]
    cases c.sortV <;> cases c.offsetV <;>
      simp [List.length_take, cursorMatches]
  · intro l2 k2
    simp [chainExec, hcoll, cursorMatches]

/-- C5 witness: a store of 10 matching documents with limit 3 resolves
with total 10 and exactly 3 documents. -/
theorem find_total_independent_of_limit_witness :
    (chainExec wTenDocs (fun _ _ => true) (fun _ _ => true) none none
        ((find (some "users") .vNull .vNull).limit 3)).outcome
      = .resolved { total := 10, docs := wTenDocs.take 3 } ∧
    (cursorToArray wTenDocs (fun _ _ => true) (fun _ _ => true)
        ((find (some "users") .vNull .vNull).limit 3)).length = 3 := by
  have h := (find_total_independent_of_limit "users" wTenDocs (fun _ _ => true)
      (fun _ _ => true) ((find (some "users") .vNull .vNull).limit 3) 3 rfl rfl).1
  constructor
  · rw [h]; decide
  · decide

/-- C6: with no options argument, or with options not explicitly
requesting the pre-update document, findOneAndUpdate resolves with the
post-update document. -/
theorem findOneAndUpdate_defaults_to_post (nm : String) (current : Doc)
    (apply : JsPrim → Doc → Doc) (filter update : JsPrim) (options : Option FOUOptions)
    (hnotpre : ∀ o, options = some o → o.returnOriginal ≠ some true) :
    (findOneAndUpdate (some nm)
        (fun _ u o => .resolved (storeFindOneAndUpdate current apply u o))
        filter update options).outcome = .resolved (apply update current) := by
  have hnorm : ¬(normalizeFOUOptions options).returnOriginal = some true := by
    cases options with
    | none => simp [normalizeFOUOptions]
    | some o =>
        have ht := hnotpre o rfl
        cases ho : o.returnOriginal with
        | none => simp [normalizeFOUOptions, ho]
        | some b => simpa [normalizeFOUOptions, ho] using ht
  simp [findOneAndUpdate, storeFindOneAndUpdate, hnorm]

/-- C6 witness: with no options, the resolved document is the updated
one. -/
theorem findOneAndUpdate_defaults_to_post_witness :
    (findOneAndUpdate (some "users")
        (fun _ u o => .resolved (storeFindOneAndUpdate wDocX wApply u o))
        .vNull (.vNum 7) none).outcome = .resolved (wApply (.vNum 7) wDocX) :=
  findOneAndUpdate_defaults_to_post "users" wDocX wApply .vNull (.vNum 7) none
    (fun _ ho => nomatch ho)

/-- C7: aggregate hands the pipeline and options to the store and
returns the driver cursor unchanged; its only instrumentation is the
single record fired before the store call, whose logical duration is 0:
no record carrying a duration of the finished aggregation is ever
delivered. -/
theorem aggregate_passthrough {χ : Type} (nm : String)
    (storeAgg : JsPrim → JsPrim → χ) (pipeline options : JsPrim) :
    (aggregate (some nm) storeAgg pipeline options).1 = .ok (storeAgg pipeline options) ∧
    (aggregate (some nm) storeAgg pipeline options).2 =
      [.sinkRecord { category := "mongo", name := "aggregate",
                     message := "pipeline=" ++ _json pipeline ++ " options=" ++ _json options,
                     durationMs := 0 },
       .storeAggregate pipeline options] ∧
    (aggregate (some nm) storeAgg pipeline options).2.countP AggEvent.isSinkRecord = 1 ∧
    (∀ r, AggEvent.sinkRecord r ∈ (aggregate (some nm) storeAgg pipeline options).2 →
        r.durationMs = 0 ∧ r.error = none) := by
  refine ⟨rfl, rfl, ?_, ?_⟩
  · simp [aggregate, List.countP_cons, AggEvent.isSinkRecord]
  · intro r hr
    simp only [aggregate, List.mem_cons, List.not_mem_nil, or_false] at hr
    rcases hr with h | h
    · cases h
      exact ⟨rfl, rfl⟩
    · cases h

/-- C8: findOneById issues the same store lookup `(_id = id)` and has
the same outcome for any two values of the options argument; when the
facade is initialized, the issued store call carries only the id. -/
theorem findOneById_options_independent (coll : Option String)
    (store : IdFilter → StoreReply (Option Doc)) (id o1 o2 : JsPrim) :
    (findOneById coll store id o1).1.outcome = (findOneById coll store id o2).1.outcome ∧
    (findOneById coll store id o1).2 = (findOneById coll store id o2).2 ∧
    (∀ nm, (findOneById (some nm) store id o1).2 = some { _id := id }) := by
  refine ⟨?_, ?_, ?_⟩
  · cases coll with
    | none => rfl
    | some nm => cases h : store { _id := id } <;> simp [findOneById, h]
  · cases coll with
    | none => rfl
    | some nm => cases h : store { _id := id } <;> simp [findOneById, h]
  · intro nm
    cases h : store { _id := id } <;> simp [findOneById, h]

/-- C9: insertOne copies the client identifier into the primary-key
field only when it is truthy, by overwriting the heap cell holding the
caller object before the store call; the store receives the very
same reference, so caller object and stored object coincide. -/
theorem insertOne_mutates_caller (heap : List Doc) (r : Nat) (h : r < heap.length) :
    (insertOneMutate heap r).2 = r ∧
    (insertOneMutate heap r).1.getD r default = insertOnePrepare (heap.getD r default) ∧
    ((heap.getD r default).id.truthy = true →
      (insertOneMutate heap r).1.getD r default
        = { heap.getD r default with _id := (heap.getD r default).id }) ∧
    ((heap.getD r default).id.truthy = false → (insertOneMutate heap r).1 = heap) := by
  refine ⟨rfl, ?_, ?_, ?_⟩
  · exact getD_set_self heap r _ h
  · intro htr
    simp only [insertOneMutate]
    rw [getD_set_self heap r _ h]
    rw [insertOnePrepare, if_pos htr]
  · intro hf
    show heap.set r (insertOnePrepare (heap.getD r default)) = heap
    rw [insertOnePrepare, hf]
    simp only [Bool.false_eq_true, if_neg, not_false_eq_true]
    exact set_getD_self heap r h

/-- C9 witness: on a one-cell heap holding a document with truthy id
`X`, the cell is overwritten with `_id = X` and the same reference 0
is handed to the store. -/
theorem insertOne_mutates_caller_witness :
    (0 < ([wDocX] : List Doc).length) ∧
    (insertOneMutate [wDocX] 0).2 = 0 ∧
    (insertOneMutate [wDocX] 0).1.getD 0 default
      = { wDocX with _id := .vStr "X" } := by
  have h := insertOne_mutates_caller [wDocX] 0 (by decide)
  exact ⟨by decide, h.1, by rw [h.2.2.1 (by decide)]; decide⟩

/-- C10: a falsy store rejection falls through the `if (error)` guard
of the insertOne rejection handler, so the returned promise neither
resolves nor rejects, and no timer terminal fires. -/
theorem insertOne_falsy_rejection_never_settles (nm : String)
    (store : Doc → StoreReply (Option (List Doc))) (data : Doc) (v : RejVal)
    (hstore : store (insertOnePrepare data) = .rejected v)
    (hfalsy : v.truthy = false) :
    (insertOne (some nm) store data).outcome = .pending ∧
    (insertOne (some nm) store data).records = [] := by
  constructor <;> simp [insertOne, hstore, hfalsy]

/-- C10 witness: a store rejecting with the falsy value undefined
leaves the insertOne promise pending forever. -/
theorem insertOne_falsy_rejection_never_settles_witness :
    (insertOne (some "users") (fun _ => .rejected (.prim .vUndef)) wDocX).outcome
      = .pending :=
  (insertOne_falsy_rejection_never_settles "users" (fun _ => .rejected (.prim .vUndef))
      wDocX (.prim .vUndef) rfl rfl).1

end Maf
